import Mathlib

/-!
Verification of the kira audio engine core against its specification.

We shallowly embed the Rust sources:
  - src/crates/kira/src/clock.rs        (Clock, ClockShared, State)
  - src/crates/kira-streaming/src/handle.rs  (StreamingSoundHandle, CommandQueueFull)
  - src/crates/kira-streaming/src/lib.rs     (streaming Command, Decoder)
  - src/kira/src/sound/handle.rs        (SoundHandle)
  - src/kira/src/track/settings.rs      (TrackSettings)

f64 values are embedded as rationals (exact arithmetic), u64 tick counts as
Nat, atomics as plain record fields (the render thread is the only writer, so
a sequential model is faithful for the per-thread functional claims below).
Support types that live in files not provided under src (Tweener, ClockSpeed,
Value, TrackRoutes, command producers) are modelled from the spec, each marked
by a doc comment starting with the words Modelled from the spec.
-/

namespace Kira

/-- Shared state cell of a clock, from clock.rs lines 26-56: fields
ticking, ticks, removed, all written atomically. -/
structure ClockShared where
  ticking : Bool
  ticks : Nat
  removed : Bool
  deriving Repr, DecidableEq

/-- ClockShared::new: ticking false, ticks 0, removed false. -/
def ClockShared.new : ClockShared :=
  { ticking := false, ticks := 0, removed := false }

/-- ClockShared::is_marked_for_removal. -/
def ClockShared.is_marked_for_removal (s : ClockShared) : Bool :=
  s.removed

/-- ClockShared::mark_for_removal. -/
def ClockShared.mark_for_removal (s : ClockShared) : ClockShared :=
  { s with removed := true }

/-- The internal progress marker of a clock, from clock.rs lines 58-61. -/
inductive ClockState where
  | NotStarted
  | Started (ticks : Nat)
  deriving Repr, DecidableEq

/-- The tick count the next emitted tick would carry: 0 from NotStarted,
ticks+1 from Started (mirrors the match inside Clock::update). -/
def ClockState.nextTick : ClockState → Nat
  | .NotStarted => 0
  | .Started k => k + 1

/-- Modelled from the spec: a clock speed configuration value, given in
ticks per second (the source type ClockSpeed is not among the provided
files; spec section 6 describes it as a ticks-per-second quantity). -/
structure ClockSpeed where
  ticks_per_second : ℚ
  deriving Repr, DecidableEq

/-- ClockSpeed::as_ticks_per_second. -/
def ClockSpeed.as_ticks_per_second (s : ClockSpeed) : ℚ :=
  s.ticks_per_second

/-- Modelled from the spec: a Tween describes a timed transition; only the
duration matters for the clock claims (easing is taken linear). -/
structure Tween where
  duration : ℚ
  deriving Repr, DecidableEq

/-- Modelled from the spec: the Tweener (its source file is not provided)
holds a current value and at most one in-flight tween; set starts
interpolating from the current value toward the target over the duration;
update dt advances elapsed time, completing exactly when elapsed reaches the
duration; value returns the current interpolated value. -/
inductive TweenerState where
  | idle (value : ClockSpeed)
  | tweening (start target : ClockSpeed) (duration elapsed : ℚ)
  deriving Repr, DecidableEq

/-- Modelled from the spec: the current value of the tweener; duration 0
means an instantaneous jump to the target. -/
def TweenerState.value : TweenerState → ClockSpeed
  | .idle v => v
  | .tweening s t d e =>
      if d ≤ e then t
      else ⟨s.ticks_per_second + (t.ticks_per_second - s.ticks_per_second) * (e / d)⟩

/-- Modelled from the spec: Tweener::set replaces any in-flight tween,
restarting interpolation from the then-current value. -/
def TweenerState.set (st : TweenerState) (target : ClockSpeed) (tween : Tween) :
    TweenerState :=
  .tweening (TweenerState.value st) target tween.duration 0

/-- Modelled from the spec: Tweener::update advances elapsed time by dt,
reverting to idle exactly when elapsed reaches the duration. -/
def TweenerState.update (st : TweenerState) (dt : ℚ) : TweenerState :=
  match st with
  | .idle v => .idle v
  | .tweening s t d e => if d ≤ e + dt then .idle t else .tweening s t d (e + dt)

/-- Modelled from the spec: a clock time stamp carried by on_clock_tick
(the source type ClockTime is not among the provided files). -/
structure ClockTime where
  ticks : Nat
  deriving Repr, DecidableEq

/-- Modelled from the spec: Tweener::on_clock_tick only affects tweens whose
duration is measured in clock ticks; for the wall-time tweens modelled here
it leaves the tweener unchanged. -/
def TweenerState.on_clock_tick (st : TweenerState) (_time : ClockTime) : TweenerState :=
  st

/-- The clock, from clock.rs lines 63-69: shared cell, ticking flag,
tweened speed, progress state and the sub-tick accumulator tick_timer. -/
structure Clock where
  shared : ClockShared
  ticking : Bool
  speed : TweenerState
  state : ClockState
  tick_timer : ℚ
  deriving Repr, DecidableEq

/-- Clock::new, clock.rs lines 72-80. -/
def Clock.new (speed : ClockSpeed) : Clock :=
  { shared := ClockShared.new
    ticking := false
    speed := .idle speed
    state := .NotStarted
    tick_timer := 1 }

/-- Clock::set_speed, clock.rs lines 86-88. -/
def Clock.set_speed (c : Clock) (speed : ClockSpeed) (tween : Tween) : Clock :=
  { c with speed := c.speed.set speed tween }

/-- Clock::start, clock.rs lines 90-93. -/
def Clock.start (c : Clock) : Clock :=
  { c with ticking := true, shared := { c.shared with ticking := true } }

/-- Clock::pause, clock.rs lines 95-98. -/
def Clock.pause (c : Clock) : Clock :=
  { c with ticking := false, shared := { c.shared with ticking := false } }

/-- Clock::stop, clock.rs lines 100-104: pause, then reset the state to
NotStarted and store 0 into the shared tick count. The accumulator
tick_timer is not touched. -/
def Clock.stop (c : Clock) : Clock :=
  let c := c.pause
  { c with state := .NotStarted, shared := { c.shared with ticks := 0 } }

/-- Result of the while loop inside Clock::update: final accumulator, final
state, final shared cell, and the trace of emitted ticks, each paired with
the shared cell as it stands right after that tick count is stored. -/
structure LoopResult where
  tick_timer : ℚ
  state : ClockState
  shared : ClockShared
  trace : List (Nat × ClockShared)
  deriving Repr, DecidableEq

/-- The number of iterations the while loop of Clock::update performs when
entered with accumulator t: iterations continue while the accumulator is
nonpositive and each iteration adds 1. -/
def tickLoopCount (t : ℚ) : Nat :=
  if t ≤ 0 then (Rat.floor (-t)).toNat + 1 else 0

/-- One-for-one embedding of the while loop of Clock::update (clock.rs lines
113-127), structurally recursive on a fuel argument: while the accumulator
is nonpositive, add 1 to it, advance the state (NotStarted emits 0 and
becomes Started 0, Started k emits k+1), store the emitted count into the
shared cell, and record the emission. -/
def tickLoopFuel : Nat → ℚ → ClockState → ClockShared → LoopResult
  | 0, t, s, sh => { tick_timer := t, state := s, shared := sh, trace := [] }
  | fuel + 1, t, s, sh =>
      if t ≤ 0 then
        let p : Nat × ClockState :=
          match s with
          | .NotStarted => (0, .Started 0)
          | .Started k => (k + 1, .Started (k + 1))
        let sh' := { sh with ticks := p.1 }
        let r := tickLoopFuel fuel (t + 1) p.2 sh'
        { r with trace := (p.1, sh') :: r.trace }
      else
        { tick_timer := t, state := s, shared := sh, trace := [] }

/-- The while loop of Clock::update, run to completion. -/
def tickLoop (t : ℚ) (s : ClockState) (sh : ClockShared) : LoopResult :=
  tickLoopFuel (tickLoopCount t) t s sh

/-- Clock::update, clock.rs lines 106-129: advance the speed tweener by dt;
if not ticking return None; otherwise decrement tick_timer by
speed.value().as_ticks_per_second() * dt and run the tick loop; the return
value is the last tick count emitted, if any. -/
def Clock.update (c : Clock) (dt : ℚ) : Clock × Option Nat :=
  let spd := c.speed.update dt
  if c.ticking = false then
    ({ c with speed := spd }, none)
  else
    let r := tickLoop (c.tick_timer - spd.value.as_ticks_per_second * dt) c.state c.shared
    ({ c with speed := spd, tick_timer := r.tick_timer, state := r.state, shared := r.shared },
      (r.trace.map Prod.fst).getLast?)

/-- The list of tick counts emitted by one Clock::update call, in emission
order (derived view of Clock.update used to state per-tick claims). -/
def Clock.updateTicks (c : Clock) (dt : ℚ) : List Nat :=
  let spd := c.speed.update dt
  if c.ticking = false then []
  else
    (tickLoop (c.tick_timer - spd.value.as_ticks_per_second * dt) c.state c.shared).trace.map
      Prod.fst

/-- Clock::on_clock_tick, clock.rs lines 131-133. -/
def Clock.on_clock_tick (c : Clock) (time : ClockTime) : Clock :=
  { c with speed := c.speed.on_clock_tick time }

/-- Folding Clock::update over a list of block durations, keeping only the
clock (used to state claims about any number of subsequent updates). -/
def Clock.updateMany (c : Clock) (dts : List ℚ) : Clock :=
  dts.foldl (fun c dt => (c.update dt).1) c

/-- A fresh clock with fixed rate R ticks per second, started, then updated
n times with dt = 1/R (the scenario of the fixed-rate claim). -/
def clockAfter (R : ℚ) : Nat → Clock
  | 0 => (Clock.new ⟨R⟩).start
  | n + 1 => ((clockAfter R n).update (1 / R)).1

/-- The tick count the shared cell is expected to hold for a given internal
state: 0 before the first tick, k once Started with k ticks. -/
def ClockState.tickCount : ClockState → Nat
  | .NotStarted => 0
  | .Started k => k

/-- The consistency invariant between a clock and its shared cell: the
shared ticking flag mirrors the internal one and the shared tick count
mirrors the internal progress state. -/
def ClockInv (c : Clock) : Prop :=
  c.shared.ticking = c.ticking ∧ c.shared.ticks = c.state.tickCount

instance (c : Clock) : Decidable (ClockInv c) := by
  unfold ClockInv; infer_instance

/-! ## Control-side handles (kira-streaming handle.rs, kira sound/handle.rs) -/

/-- Modelled from the spec: a continuously-variable parameter value, either
a fixed number or a reference to a parameter (the source type Value is not
among the provided files). -/
inductive Value where
  | Fixed (value : ℚ)
  | Parameter (id : Nat)
  deriving Repr, DecidableEq

/-- The streaming sound command: kira-streaming lib.rs lines 22-27 declares
Pause, Resume and Stop; handle.rs additionally constructs SetVolume,
SetPlaybackRate, SetPanning, SeekTo and SeekBy, so the embedding carries
every variant referenced by the two files. -/
inductive StreamingCommand where
  | SetVolume (volume : Value)
  | SetPlaybackRate (playback_rate : Value)
  | SetPanning (panning : Value)
  | Pause (tween : Tween)
  | Resume (tween : Tween)
  | Stop (tween : Tween)
  | SeekTo (position : ℚ)
  | SeekBy (amount : ℚ)
  deriving Repr, DecidableEq

/-- The error returned when the command queue is saturated, from
kira-streaming handle.rs lines 8-9. -/
structure CommandQueueFull where
  deriving Repr, DecidableEq

/-- Modelled from the spec: the ringbuf producer end used by the streaming
handle — a bounded, non-blocking FIFO; push appends when below capacity and
otherwise immediately returns the rejected element as the error. -/
structure Producer (α : Type) where
  capacity : Nat
  items : List α

/-- Modelled from the spec: Producer::push of the bounded ring buffer. -/
def Producer.push {α : Type} (p : Producer α) (a : α) :
    Producer α × Except α Unit :=
  if p.items.length < p.capacity then ({ p with items := p.items ++ [a] }, .ok ())
  else (p, .error a)

/-- Modelled from the spec: the shared cell of a streaming sound; the handle
only reads the position from it. -/
structure StreamingShared where
  position : ℚ
  deriving Repr, DecidableEq

/-- The control-side handle of a streaming sound, from kira-streaming
handle.rs lines 19-22. -/
structure StreamingSoundHandle where
  shared : StreamingShared
  command_producer : Producer StreamingCommand

/-- StreamingSoundHandle::position, handle.rs lines 25-27. -/
def StreamingSoundHandle.position (h : StreamingSoundHandle) : ℚ :=
  h.shared.position

/-- StreamingSoundHandle::set_volume, handle.rs lines 29-33. -/
def StreamingSoundHandle.set_volume (h : StreamingSoundHandle) (volume : Value) :
    StreamingSoundHandle × Except CommandQueueFull Unit :=
  let r := h.command_producer.push (.SetVolume volume)
  ({ h with command_producer := r.1 }, r.2.mapError fun _ => ⟨⟩)

/-- StreamingSoundHandle::set_playback_rate, handle.rs lines 35-42. -/
def StreamingSoundHandle.set_playback_rate (h : StreamingSoundHandle)
    (playback_rate : Value) : StreamingSoundHandle × Except CommandQueueFull Unit :=
  let r := h.command_producer.push (.SetPlaybackRate playback_rate)
  ({ h with command_producer := r.1 }, r.2.mapError fun _ => ⟨⟩)

/-- StreamingSoundHandle::set_panning, handle.rs lines 44-48. -/
def StreamingSoundHandle.set_panning (h : StreamingSoundHandle) (panning : Value) :
    StreamingSoundHandle × Except CommandQueueFull Unit :=
  let r := h.command_producer.push (.SetPanning panning)
  ({ h with command_producer := r.1 }, r.2.mapError fun _ => ⟨⟩)

/-- StreamingSoundHandle::pause, handle.rs lines 50-54. -/
def StreamingSoundHandle.pause (h : StreamingSoundHandle) (tween : Tween) :
    StreamingSoundHandle × Except CommandQueueFull Unit :=
  let r := h.command_producer.push (.Pause tween)
  ({ h with command_producer := r.1 }, r.2.mapError fun _ => ⟨⟩)

/-- StreamingSoundHandle::resume, handle.rs lines 56-60. -/
def StreamingSoundHandle.resume (h : StreamingSoundHandle) (tween : Tween) :
    StreamingSoundHandle × Except CommandQueueFull Unit :=
  let r := h.command_producer.push (.Resume tween)
  ({ h with command_producer := r.1 }, r.2.mapError fun _ => ⟨⟩)

/-- StreamingSoundHandle::stop, handle.rs lines 62-66. -/
def StreamingSoundHandle.stop (h : StreamingSoundHandle) (tween : Tween) :
    StreamingSoundHandle × Except CommandQueueFull Unit :=
  let r := h.command_producer.push (.Stop tween)
  ({ h with command_producer := r.1 }, r.2.mapError fun _ => ⟨⟩)

/-- StreamingSoundHandle::seek_to, handle.rs lines 68-72. -/
def StreamingSoundHandle.seek_to (h : StreamingSoundHandle) (position : ℚ) :
    StreamingSoundHandle × Except CommandQueueFull Unit :=
  let r := h.command_producer.push (.SeekTo position)
  ({ h with command_producer := r.1 }, r.2.mapError fun _ => ⟨⟩)

/-- StreamingSoundHandle::seek_by, handle.rs lines 74-78. -/
def StreamingSoundHandle.seek_by (h : StreamingSoundHandle) (amount : ℚ) :
    StreamingSoundHandle × Except CommandQueueFull Unit :=
  let r := h.command_producer.push (.SeekBy amount)
  ({ h with command_producer := r.1 }, r.2.mapError fun _ => ⟨⟩)

/-- Modelled from the spec: CommandQueueFull is the only runtime error
surfaced to control-side callers, so the command producer error type of the
kira crate (producer.rs is not among the provided files) has exactly that
one variant. -/
inductive CommandProducerError where
  | CommandQueueFull
  deriving Repr, DecidableEq

/-- Modelled from the spec: instance settings consumed by SoundHandle::play
(their source file is not among the provided files); only the requested
instance id matters for the claims. -/
structure InstanceSettings where
  id : Nat
  deriving Repr, DecidableEq

/-- Modelled from the spec: settings accompanying PauseInstancesOf. -/
structure PauseInstanceSettings where
  fade_tween : Option Tween
  deriving Repr, DecidableEq

/-- Modelled from the spec: settings accompanying ResumeInstancesOf. -/
structure ResumeInstanceSettings where
  fade_tween : Option Tween
  deriving Repr, DecidableEq

/-- Modelled from the spec: settings accompanying StopInstancesOf. -/
structure StopInstanceSettings where
  fade_tween : Option Tween
  deriving Repr, DecidableEq

/-- Modelled from the spec: the render-side instance created by play (its
source file is not among the provided files); only its identity matters for
the claims. -/
structure Instance where
  id : Nat
  deriving Repr, DecidableEq

/-- Modelled from the spec: the handle to a playing instance returned by
SoundHandle::play. -/
structure InstanceHandle where
  id : Nat
  deriving Repr, DecidableEq

/-- The instance command pushed by the sound handle, from
kira sound/handle.rs (Play, PauseInstancesOf, ResumeInstancesOf,
StopInstancesOf); sound ids are embedded as Nat. -/
inductive InstanceCommand where
  | Play (id : Nat) (inst : Instance)
  | PauseInstancesOf (sound : Nat) (settings : PauseInstanceSettings)
  | ResumeInstancesOf (sound : Nat) (settings : ResumeInstanceSettings)
  | StopInstancesOf (sound : Nat) (settings : StopInstanceSettings)
  deriving Repr, DecidableEq

/-- Modelled from the spec: the command producer cloned into kira handles, a
bounded, non-blocking FIFO whose push fails with CommandQueueFull when the
queue is saturated. -/
structure CommandProducer (α : Type) where
  capacity : Nat
  items : List α

/-- Modelled from the spec: CommandProducer::push. -/
def CommandProducer.push {α : Type} (p : CommandProducer α) (a : α) :
    CommandProducer α × Except CommandProducerError Unit :=
  if p.items.length < p.capacity then ({ p with items := p.items ++ [a] }, .ok ())
  else (p, .error .CommandQueueFull)

/-- The control-side handle of a sound, from kira sound/handle.rs lines
19-26 (ids and track indices embedded as Nat, durations as rationals). -/
structure SoundHandle where
  id : Nat
  duration : ℚ
  default_track : Nat
  semantic_duration : Option ℚ
  default_loop_start : Option ℚ
  command_sender : CommandProducer InstanceCommand

/-- SoundHandle::play, sound/handle.rs lines 70-85: build the instance and
its handle, push one Play command, and return the handle on success or
propagate the push error. -/
def SoundHandle.play (h : SoundHandle) (settings : InstanceSettings) :
    SoundHandle × Except CommandProducerError InstanceHandle :=
  let inst : Instance := { id := settings.id }
  let handle : InstanceHandle := { id := settings.id }
  let r := h.command_sender.push (.Play settings.id inst)
  match r.2 with
  | .ok _ => ({ h with command_sender := r.1 }, .ok handle)
  | .error e => ({ h with command_sender := r.1 }, .error e)

/-- SoundHandle::pause, sound/handle.rs lines 88-91. -/
def SoundHandle.pause (h : SoundHandle) (settings : PauseInstanceSettings) :
    SoundHandle × Except CommandProducerError Unit :=
  let r := h.command_sender.push (.PauseInstancesOf h.id settings)
  ({ h with command_sender := r.1 }, r.2)

/-- SoundHandle::resume, sound/handle.rs lines 94-97. -/
def SoundHandle.resume (h : SoundHandle) (settings : ResumeInstanceSettings) :
    SoundHandle × Except CommandProducerError Unit :=
  let r := h.command_sender.push (.ResumeInstancesOf h.id settings)
  ({ h with command_sender := r.1 }, r.2)

/-- SoundHandle::stop, sound/handle.rs lines 100-103. -/
def SoundHandle.stop (h : SoundHandle) (settings : StopInstanceSettings) :
    SoundHandle × Except CommandProducerError Unit :=
  let r := h.command_sender.push (.StopInstancesOf h.id settings)
  ({ h with command_sender := r.1 }, r.2)

/-! ## Track settings (kira track/settings.rs) -/

/-- Modelled from the spec: the route set of a track (routes.rs is not among
the provided files); a list of (target track, level) pairs, with
TrackRoutes::new yielding the empty route set. -/
structure TrackRoutes where
  routes : List (Nat × ℚ)
  deriving Repr, DecidableEq

/-- Modelled from the spec: TrackRoutes::new. -/
def TrackRoutes.new : TrackRoutes :=
  { routes := [] }

/-- Track settings, from track/settings.rs lines 5-9. -/
structure TrackSettings where
  volume : Value
  panning : Value
  routes : TrackRoutes
  deriving Repr, DecidableEq

/-- TrackSettings::new, settings.rs lines 12-18: volume Fixed 1.0, panning
Fixed 0.5, routes TrackRoutes::new. -/
def TrackSettings.new : TrackSettings :=
  { volume := .Fixed 1, panning := .Fixed (1/2), routes := TrackRoutes.new }

/-- The builder method TrackSettings::volume, settings.rs lines 20-25
(named with_volume here because the field projection takes the source
name). -/
def TrackSettings.with_volume (s : TrackSettings) (volume : Value) : TrackSettings :=
  { s with volume := volume }

/-- The builder method TrackSettings::panning, settings.rs lines 27-32. -/
def TrackSettings.with_panning (s : TrackSettings) (panning : Value) : TrackSettings :=
  { s with panning := panning }

/-- The builder method TrackSettings::routes, settings.rs lines 34-36. -/
def TrackSettings.with_routes (s : TrackSettings) (routes : TrackRoutes) : TrackSettings :=
  { s with routes := routes }

/-- The Default implementation for TrackSettings, settings.rs lines 39-43. -/
def TrackSettings.default : TrackSettings :=
  TrackSettings.new

/-- What one streaming-handle mutator does to its command queue: capacity
is preserved, and either the queue had room, exactly the one command was
appended and the call returned ok, or the queue was full, it is unchanged
and the call returned the CommandQueueFull error (the only possible
failure). -/
def StreamingPushSpec (before : Producer StreamingCommand) (cmd : StreamingCommand)
    (after : Producer StreamingCommand) (res : Except CommandQueueFull Unit) : Prop :=
  after.capacity = before.capacity ∧
  (before.items.length < before.capacity →
    res = .ok () ∧ after.items = before.items ++ [cmd]) ∧
  (¬ before.items.length < before.capacity →
    res = .error ⟨⟩ ∧ after.items = before.items)

/-- What one sound-handle mutator does to its command queue: capacity is
preserved, and either the queue had room, exactly the one command was
appended and the call returned the given ok value, or the queue was full,
it is unchanged and the call returned CommandQueueFull (the only variant of
the producer error type). -/
def SoundPushSpec {β : Type} (before : CommandProducer InstanceCommand)
    (cmd : InstanceCommand) (after : CommandProducer InstanceCommand)
    (res : Except CommandProducerError β) (okVal : β) : Prop :=
  after.capacity = before.capacity ∧
  (before.items.length < before.capacity →
    res = .ok okVal ∧ after.items = before.items ++ [cmd]) ∧
  (¬ before.items.length < before.capacity →
    res = .error .CommandQueueFull ∧ after.items = before.items)

/-! ## Lemmas about the tick loop -/

theorem ratFloor_eq_intFloor (q : ℚ) : Rat.floor q = ⌊q⌋ :=
  (Rat.floor_def' q).trans Rat.floor_def.symm

theorem tickLoopCount_eq (t : ℚ) :
    tickLoopCount t = if t ≤ 0 then (⌊-t⌋).toNat + 1 else 0 := by
  simp [tickLoopCount, ratFloor_eq_intFloor]

theorem tickLoopCount_of_pos {t : ℚ} (h : ¬ t ≤ 0) : tickLoopCount t = 0 := by
  simp [tickLoopCount_eq, h]

theorem tickLoopCount_pos {t : ℚ} (h : t ≤ 0) : 1 ≤ tickLoopCount t := by
  simp [tickLoopCount_eq, h]

theorem tickLoopCount_succ {t : ℚ} (h : t ≤ 0) :
    tickLoopCount t = tickLoopCount (t + 1) + 1 := by
  rw [tickLoopCount_eq, tickLoopCount_eq, if_pos h]
  by_cases h1 : t + 1 ≤ 0
  · rw [if_pos h1]
    have h2 : -(t + 1) = -t - (1 : ℤ) := by push_cast; ring
    have h3 : ⌊-(t + 1)⌋ = ⌊-t⌋ - 1 := by rw [h2, Int.floor_sub_int]
    have h4 : (1 : ℤ) ≤ ⌊-t⌋ := Int.le_floor.mpr (by push_cast; linarith)
    omega
  · rw [if_neg h1]
    have h2 : ⌊-t⌋ < 1 := Int.floor_lt.mpr (by push_cast; linarith)
    omega

theorem tickLoopCount_final_pos (t : ℚ) : 0 < t + tickLoopCount t := by
  rw [tickLoopCount_eq]
  by_cases h : t ≤ 0
  · rw [if_pos h]
    have h1 : (0 : ℤ) ≤ ⌊-t⌋ := Int.le_floor.mpr (by push_cast; linarith)
    have h2 : -t < ⌊-t⌋ + 1 := Int.lt_floor_add_one (-t)
    have h3 : ((⌊-t⌋).toNat : ℚ) = (⌊-t⌋ : ℚ) := by exact_mod_cast Int.toNat_of_nonneg h1
    push_cast
    rw [h3]
    linarith
  · rw [if_neg h]
    push_cast
    linarith [not_le.mp h]

theorem tickLoopCount_mid_nonpos (t : ℚ) {m : ℕ} (hm : m < tickLoopCount t) :
    t + m ≤ 0 := by
  rw [tickLoopCount_eq] at hm
  by_cases h : t ≤ 0
  · rw [if_pos h] at hm
    have h1 : (0 : ℤ) ≤ ⌊-t⌋ := Int.le_floor.mpr (by push_cast; linarith)
    have h2 : (m : ℤ) ≤ ⌊-t⌋ := by omega
    have h3 : ((m : ℤ) : ℚ) ≤ -t := le_trans (by exact_mod_cast h2) (Int.floor_le (-t))
    push_cast at h3 ⊢
    linarith
  · rw [if_neg h] at hm
    omega

/-- Full characterization of the tick loop, by induction on the fuel: with
enough fuel the loop performs exactly tickLoopCount t iterations, adding 1
to the accumulator and emitting the next tick count on each one, and each
emission is stored into the shared cell as it happens. -/
theorem tickLoopFuel_spec (fuel : Nat) (t : ℚ) (s : ClockState) (sh : ClockShared)
    (h : tickLoopCount t ≤ fuel) :
    tickLoopFuel fuel t s sh =
      { tick_timer := t + tickLoopCount t
        state := if tickLoopCount t = 0 then s
                 else .Started (s.nextTick + tickLoopCount t - 1)
        shared := if tickLoopCount t = 0 then sh
                  else { sh with ticks := s.nextTick + tickLoopCount t - 1 }
        trace := (List.range' s.nextTick (tickLoopCount t)).map
                   (fun k => (k, { sh with ticks := k })) } := by
  induction fuel generalizing t s sh with
  | zero =>
    have h0 : tickLoopCount t = 0 := Nat.le_zero.mp h
    simp [tickLoopFuel, h0]
  | succ n ih =>
    by_cases hg : t ≤ 0
    · have hsucc : tickLoopCount t = tickLoopCount (t + 1) + 1 := tickLoopCount_succ hg
      have hle : tickLoopCount (t + 1) ≤ n := by omega
      cases s with
      | NotStarted =>
        simp only [tickLoopFuel, if_pos hg, ih (t + 1) (.Started 0) _ hle]
        rw [hsucc]
        simp only [ClockState.nextTick, List.range'_succ, List.map_cons,
          LoopResult.mk.injEq]
        refine ⟨by push_cast; ring, ?_, ?_, by trivial⟩
        · rcases Nat.eq_zero_or_pos (tickLoopCount (t + 1)) with h0 | h0
          · simp [h0]
          · have hne : tickLoopCount (t + 1) ≠ 0 := by omega
            simp only [if_neg hne, if_neg (Nat.succ_ne_zero _), ClockState.Started.injEq]
            omega
        · rcases Nat.eq_zero_or_pos (tickLoopCount (t + 1)) with h0 | h0
          · simp [h0]
          · have hne : tickLoopCount (t + 1) ≠ 0 := by omega
            simp only [if_neg hne, if_neg (Nat.succ_ne_zero _), ClockShared.mk.injEq]
            exact ⟨by trivial, by omega, by trivial⟩
      | Started k =>
        simp only [tickLoopFuel, if_pos hg, ih (t + 1) (.Started (k + 1)) _ hle]
        rw [hsucc]
        simp only [ClockState.nextTick, List.range'_succ, List.map_cons,
          LoopResult.mk.injEq]
        refine ⟨by push_cast; ring, ?_, ?_, by trivial⟩
        · rcases Nat.eq_zero_or_pos (tickLoopCount (t + 1)) with h0 | h0
          · simp [h0]
          · have hne : tickLoopCount (t + 1) ≠ 0 := by omega
            simp only [if_neg hne, if_neg (Nat.succ_ne_zero _), ClockState.Started.injEq]
            omega
        · rcases Nat.eq_zero_or_pos (tickLoopCount (t + 1)) with h0 | h0
          · simp [h0]
          · have hne : tickLoopCount (t + 1) ≠ 0 := by omega
            simp only [if_neg hne, if_neg (Nat.succ_ne_zero _), ClockShared.mk.injEq]
            exact ⟨by trivial, by omega, by trivial⟩
    · have h0 : tickLoopCount t = 0 := tickLoopCount_of_pos hg
      simp [tickLoopFuel, hg, h0]

/-- The tick loop characterization at the fuel used by tickLoop itself. -/
theorem tickLoop_spec (t : ℚ) (s : ClockState) (sh : ClockShared) :
    tickLoop t s sh =
      { tick_timer := t + tickLoopCount t
        state := if tickLoopCount t = 0 then s
                 else .Started (s.nextTick + tickLoopCount t - 1)
        shared := if tickLoopCount t = 0 then sh
                  else { sh with ticks := s.nextTick + tickLoopCount t - 1 }
        trace := (List.range' s.nextTick (tickLoopCount t)).map
                   (fun k => (k, { sh with ticks := k })) } :=
  tickLoopFuel_spec _ t s sh le_rfl

theorem tickLoop_trace_counts (t : ℚ) (s : ClockState) (sh : ClockShared) :
    (tickLoop t s sh).trace.map Prod.fst = List.range' s.nextTick (tickLoopCount t) := by
  rw [tickLoop_spec]
  simp only [List.map_map]
  exact List.map_id _

theorem tickLoop_trace_length (t : ℚ) (s : ClockState) (sh : ClockShared) :
    (tickLoop t s sh).trace.length = tickLoopCount t := by
  rw [tickLoop_spec]
  simp

theorem tickLoop_shared_ticking (t : ℚ) (s : ClockState) (sh : ClockShared) :
    (tickLoop t s sh).shared.ticking = sh.ticking := by
  rw [tickLoop_spec]
  rcases Nat.eq_zero_or_pos (tickLoopCount t) with h0 | h0
  · simp [h0]
  · simp [Nat.pos_iff_ne_zero.mp h0]

theorem tickLoop_shared_removed (t : ℚ) (s : ClockState) (sh : ClockShared) :
    (tickLoop t s sh).shared.removed = sh.removed := by
  rw [tickLoop_spec]
  rcases Nat.eq_zero_or_pos (tickLoopCount t) with h0 | h0
  · simp [h0]
  · simp [Nat.pos_iff_ne_zero.mp h0]

/-! ## Lemmas about Clock::update -/

theorem Clock.update_not_ticking (c : Clock) (dt : ℚ) (h : c.ticking = false) :
    c.update dt = ({ c with speed := c.speed.update dt }, none) := by
  simp [Clock.update, h]

theorem Clock.update_ticking (c : Clock) (dt : ℚ) (h : c.ticking = true) :
    c.update dt =
      ({ c with
          speed := c.speed.update dt
          tick_timer := (tickLoop
            (c.tick_timer - (c.speed.update dt).value.as_ticks_per_second * dt)
            c.state c.shared).tick_timer
          state := (tickLoop
            (c.tick_timer - (c.speed.update dt).value.as_ticks_per_second * dt)
            c.state c.shared).state
          shared := (tickLoop
            (c.tick_timer - (c.speed.update dt).value.as_ticks_per_second * dt)
            c.state c.shared).shared },
        ((tickLoop (c.tick_timer - (c.speed.update dt).value.as_ticks_per_second * dt)
            c.state c.shared).trace.map Prod.fst).getLast?) := by
  simp [Clock.update, h]

theorem Clock.update_fst_ticking (c : Clock) (dt : ℚ) :
    (c.update dt).1.ticking = c.ticking := by
  rcases Bool.eq_false_or_eq_true c.ticking with h | h
  · rw [Clock.update_ticking c dt h]
  · rw [Clock.update_not_ticking c dt h]

theorem Clock.update_fst_shared_ticking (c : Clock) (dt : ℚ) :
    (c.update dt).1.shared.ticking = c.shared.ticking := by
  rcases Bool.eq_false_or_eq_true c.ticking with h | h
  · rw [Clock.update_ticking c dt h]
    exact tickLoop_shared_ticking _ _ _
  · rw [Clock.update_not_ticking c dt h]

theorem Clock.update_fst_shared_removed (c : Clock) (dt : ℚ) :
    (c.update dt).1.shared.removed = c.shared.removed := by
  rcases Bool.eq_false_or_eq_true c.ticking with h | h
  · rw [Clock.update_ticking c dt h]
    exact tickLoop_shared_removed _ _ _
  · rw [Clock.update_not_ticking c dt h]

theorem Clock.update_frozen (c : Clock) (dt : ℚ) (h : c.ticking = false) :
    (c.update dt).1.state = c.state ∧ (c.update dt).1.shared = c.shared ∧
      (c.update dt).1.ticking = false ∧ (c.update dt).1.tick_timer = c.tick_timer ∧
      (c.update dt).2 = none := by
  rw [Clock.update_not_ticking c dt h]
  exact ⟨rfl, rfl, h, rfl, rfl⟩

theorem Clock.updateMany_frozen (c : Clock) (dts : List ℚ) (h : c.ticking = false) :
    (c.updateMany dts).state = c.state ∧ (c.updateMany dts).shared = c.shared ∧
      (c.updateMany dts).ticking = false ∧ (c.updateMany dts).speed =
        dts.foldl (fun sp dt => sp.update dt) c.speed := by
  induction dts generalizing c with
  | nil => exact ⟨rfl, rfl, h, rfl⟩
  | cons dt dts ih =>
    have h1 := Clock.update_not_ticking c dt h
    have h2 := ih ({ c with speed := c.speed.update dt }) h
    simpa [Clock.updateMany, h1] using h2

/-! ## Claim C1 -/

/-- Claim C1 as stated is false on the code: Clock::stop does not reset the
sub-tick accumulator. Concretely, start a fresh clock of speed 1 tick per
second, update it by half a second (the accumulator drops to 1/2), then
stop: the accumulator still reads 1/2, not 1.0. -/
theorem clock_stop_tick_timer_counterexample :
    (((Clock.new ⟨1⟩).start.update (1/2)).1.stop).tick_timer ≠ 1 := by
  have h : (((Clock.new ⟨1⟩).start.update (1/2)).1.stop).tick_timer = 1/2 := by
    norm_num [Clock.update, Clock.new, Clock.start, Clock.stop, Clock.pause, tickLoop,
      tickLoopCount, tickLoopFuel, TweenerState.update, TweenerState.value,
      ClockSpeed.as_ticks_per_second, ClockShared.new]
  rw [h]
  norm_num

/-- Claim C1, amended: calling stop on a Clock in any state resets the tick
counter to 0 (the internal state returns to NotStarted and the shared tick
count is zeroed) and clears both ticking flags, but leaves the sub-tick
accumulator tick_timer unchanged rather than resetting it to 1.0 (the speed
tweener and the removal flag are also untouched). -/
theorem clock_stop_resets_ticks_keeps_timer (c : Clock) :
    (c.stop).state = .NotStarted ∧ (c.stop).shared.ticks = 0 ∧
      (c.stop).ticking = false ∧ (c.stop).shared.ticking = false ∧
      (c.stop).tick_timer = c.tick_timer ∧ (c.stop).speed = c.speed ∧
      (c.stop).shared.removed = c.shared.removed := by
  simp [Clock.stop, Clock.pause]

/-! ## Claim C2 -/

theorem Clock.updateTicks_ticking (c : Clock) (dt : ℚ) (h : c.ticking = true) :
    c.updateTicks dt =
      List.range' c.state.nextTick
        (tickLoopCount (c.tick_timer - (c.speed.update dt).value.as_ticks_per_second * dt)) := by
  simp only [Clock.updateTicks, h, Bool.true_eq_false, if_false]
  exact tickLoop_trace_counts _ _ _

/-- Claim C2: update(dt) first advances the speed tweener by dt; if the
clock is not ticking it emits no tick and changes no tick state; otherwise,
with t0 the accumulator after subtracting the advanced speed times dt, the
loop emits one tick per iteration with consecutive counts starting at the
successor of the current state (0 on the very first tick), adds 1.0 back to
the accumulator per emitted tick, runs exactly while the accumulator is
nonpositive, and returns the last emitted count. -/
theorem clock_update_characterization (c : Clock) (dt : ℚ) :
    (c.update dt).1.speed = c.speed.update dt ∧
    (c.ticking = false →
      (c.update dt).2 = none ∧ (c.update dt).1.state = c.state ∧
        (c.update dt).1.tick_timer = c.tick_timer ∧ (c.update dt).1.shared = c.shared) ∧
    (c.ticking = true →
      c.updateTicks dt = List.range' c.state.nextTick (c.updateTicks dt).length ∧
      (c.update dt).1.tick_timer =
        (c.tick_timer - (c.speed.update dt).value.as_ticks_per_second * dt)
          + (c.updateTicks dt).length ∧
      (0 : ℚ) < (c.update dt).1.tick_timer ∧
      (∀ m : ℕ, m < (c.updateTicks dt).length →
        (c.tick_timer - (c.speed.update dt).value.as_ticks_per_second * dt) + m ≤ 0) ∧
      (c.update dt).2 = (c.updateTicks dt).getLast?) := by
  refine ⟨?_, ?_, ?_⟩
  · rcases Bool.eq_false_or_eq_true c.ticking with h | h
    · rw [Clock.update_ticking c dt h]
    · rw [Clock.update_not_ticking c dt h]
  · intro h
    obtain ⟨h1, h2, _, h4, h5⟩ := Clock.update_frozen c dt h
    exact ⟨h5, h1, h4, h2⟩
  · intro h
    have hticks := Clock.updateTicks_ticking c dt h
    have hlen : (c.updateTicks dt).length =
        tickLoopCount (c.tick_timer - (c.speed.update dt).value.as_ticks_per_second * dt) := by
      rw [hticks, List.length_range']
    refine ⟨?_, ?_, ?_, ?_, ?_⟩
    · rw [hticks, List.length_range']
    · rw [Clock.update_ticking c dt h, hlen]
      simp [tickLoop_spec]
    · rw [Clock.update_ticking c dt h]
      simp only [tickLoop_spec]
      exact tickLoopCount_final_pos _
    · intro m hm
      rw [hlen] at hm
      exact tickLoopCount_mid_nonpos _ hm
    · rw [Clock.update_ticking c dt h]
      simp only [Clock.updateTicks, h, Bool.true_eq_false, if_false]

/-- Witness for claim C2 at a concrete input: a started clock of speed 3
ticks per second, updated by one second, is ticking, and the tick it
returns is the last of the per-iteration emissions. -/
theorem clock_update_characterization_witness :
    ((Clock.new ⟨3⟩).start).ticking = true ∧
      (((Clock.new ⟨3⟩).start).update 1).2 = (((Clock.new ⟨3⟩).start).updateTicks 1).getLast? :=
  ⟨rfl, ((clock_update_characterization ((Clock.new ⟨3⟩).start) 1).2.2 rfl).2.2.2.2⟩

/-! ## Claim C4 -/

/-- Claim C4: a newly created Clock is stopped (not ticking, NotStarted,
accumulator 1.0, shared cell fresh); start flips only the ticking flags and
emits no tick (state, shared tick count and accumulator are untouched); for
any ticking clock still in NotStarted, the first emitted tick of an update
carries count 0; and stop followed by start puts the clock back in
NotStarted with shared tick count 0 and ticking true, so the first tick
after a restart is again tick 0. -/
theorem clock_new_start_first_tick_zero (spd : ClockSpeed) (c c' d : Clock) (dt : ℚ) :
    ((Clock.new spd).ticking = false ∧ (Clock.new spd).state = .NotStarted ∧
      (Clock.new spd).tick_timer = 1 ∧ (Clock.new spd).shared = ClockShared.new) ∧
    ((c.start).state = c.state ∧ (c.start).shared.ticks = c.shared.ticks ∧
      (c.start).tick_timer = c.tick_timer ∧ (c.start).ticking = true) ∧
    (c'.state = .NotStarted → c'.updateTicks dt ≠ [] →
      (c'.updateTicks dt).head? = some 0) ∧
    ((d.stop.start).state = .NotStarted ∧ (d.stop.start).shared.ticks = 0 ∧
      (d.stop.start).ticking = true ∧ (d.stop.start).tick_timer = d.tick_timer) := by
  refine ⟨⟨rfl, rfl, rfl, rfl⟩, ⟨rfl, rfl, rfl, rfl⟩, ?_, ?_⟩
  · intro hs hne
    rcases Bool.eq_false_or_eq_true c'.ticking with h | h
    · rw [Clock.updateTicks_ticking c' dt h, hs] at hne ⊢
      simp only [ClockState.nextTick] at hne ⊢
      rcases Nat.eq_zero_or_pos
          (tickLoopCount (c'.tick_timer - (c'.speed.update dt).value.as_ticks_per_second * dt))
          with h0 | h0
      · simp [h0] at hne
      · obtain ⟨m, hm⟩ := Nat.exists_eq_add_of_lt h0
        rw [hm, Nat.zero_add, List.range'_succ]
        rfl
    · exfalso
      apply hne
      simp [Clock.updateTicks, h]
  · exact ⟨rfl, rfl, rfl, rfl⟩

/-- Witness for claim C4 at a concrete input: a fresh clock of speed 2,
started, is in NotStarted, and after an update of one second its first
emitted tick carries count 0. -/
theorem clock_new_start_first_tick_zero_witness :
    ((Clock.new (⟨2⟩ : ClockSpeed)).start.updateTicks 1).head? = some 0 := by
  have h := (clock_new_start_first_tick_zero ⟨2⟩ ((Clock.new ⟨2⟩).start)
    ((Clock.new ⟨2⟩).start) ((Clock.new ⟨2⟩).start) 1).2.2.1 rfl
  have he : (Clock.new (⟨2⟩ : ClockSpeed)).start.updateTicks 1 = [0, 1] := by
    norm_num [Clock.updateTicks, Clock.new, Clock.start, tickLoop, tickLoopCount, tickLoopFuel,
      TweenerState.update, TweenerState.value, ClockSpeed.as_ticks_per_second, ClockShared.new]
  apply h
  rw [he]
  simp

/-! ## Claim C5 -/

/-- Claim C5: after pause, the internal state and the shared tick count are
unchanged by any number of subsequent updates with any dt, the shared
ticking flag reads false throughout, and a later start preserves the state
and the shared tick count (it continues, it does not reset). -/
theorem clock_pause_freezes_ticks (c : Clock) (dts : List ℚ) :
    ((c.pause.updateMany dts).state = c.state ∧
      (c.pause.updateMany dts).shared.ticks = c.shared.ticks) ∧
    (c.pause.updateMany dts).shared.ticking = false ∧
    (c.pause.updateMany dts).ticking = false ∧
    ((c.pause.updateMany dts).start.state = c.state ∧
      (c.pause.updateMany dts).start.shared.ticks = c.shared.ticks ∧
      (c.pause.updateMany dts).start.ticking = true) := by
  have hp : (c.pause).ticking = false := rfl
  obtain ⟨h1, h2, h3, _⟩ := Clock.updateMany_frozen (c.pause) dts hp
  refine ⟨⟨?_, ?_⟩, ?_, h3, ⟨?_, ?_, rfl⟩⟩
  · rw [h1]; rfl
  · rw [h2]; rfl
  · rw [h2]; rfl
  · show (c.pause.updateMany dts).state = c.state
    rw [h1]; rfl
  · show (c.pause.updateMany dts).shared.ticks = c.shared.ticks
    rw [h2]; rfl

/-! ## Claim C6 -/

theorem clockAfter_spec (R : ℚ) (hR : 0 < R) (n : Nat) :
    clockAfter R n =
      { shared := { ticking := true, ticks := n - 1, removed := false }
        ticking := true
        speed := .idle ⟨R⟩
        state := if n = 0 then .NotStarted else .Started (n - 1)
        tick_timer := 1 } := by
  have hRne : R ≠ 0 := ne_of_gt hR
  have ht0 : (1 : ℚ) - R * (1 / R) = 0 := by field_simp
  have hcount : tickLoopCount 0 = 1 := by norm_num [tickLoopCount_eq]
  induction n with
  | zero => rfl
  | succ n ih =>
    show ((clockAfter R n).update (1 / R)).1 = _
    rw [ih, Clock.update_ticking _ _ rfl]
    simp only [TweenerState.update, TweenerState.value, ClockSpeed.as_ticks_per_second, ht0,
      tickLoop_spec, hcount]
    rcases Nat.eq_zero_or_pos n with h0 | h0
    · subst h0
      simp [ClockState.nextTick]
    · obtain ⟨m, rfl⟩ := Nat.exists_eq_succ_of_ne_zero (Nat.pos_iff_ne_zero.mp h0)
      simp [ClockState.nextTick]

/-- Claim C6: a clock with fixed rate R ticks per second (R positive),
started, then updated n times with dt = 1/R, emits on the next update with
dt = 1/R exactly one tick carrying count n (so the counts across calls are
0, 1, 2, ... in order), while an update with dt = 0 emits no tick. -/
theorem clock_fixed_rate_one_tick_per_update (R : ℚ) (hR : 0 < R) (n : Nat) :
    (clockAfter R n).updateTicks (1 / R) = [n] ∧
    ((clockAfter R n).update (1 / R)).2 = some n ∧
    (clockAfter R n).updateTicks 0 = [] ∧
    ((clockAfter R n).update 0).2 = none := by
  have ht0 : (1 : ℚ) - R * (1 / R) = 0 := by field_simp
  have ht0i : (1 : ℚ) - R * R⁻¹ = 0 := by field_simp
  have hcount : tickLoopCount 0 = 1 := by norm_num [tickLoopCount_eq]
  have hcount1 : tickLoopCount 1 = 0 := by norm_num [tickLoopCount_eq]
  rw [clockAfter_spec R hR n]
  rcases Nat.eq_zero_or_pos n with h0 | h0
  · subst h0
    refine ⟨?_, ?_, ?_, ?_⟩ <;>
      simp [Clock.update, Clock.updateTicks, TweenerState.update, TweenerState.value,
        ClockSpeed.as_ticks_per_second, ht0, ht0i, tickLoop_spec, hcount, hcount1,
        ClockState.nextTick]
  · obtain ⟨m, rfl⟩ := Nat.exists_eq_succ_of_ne_zero (Nat.pos_iff_ne_zero.mp h0)
    refine ⟨?_, ?_, ?_, ?_⟩ <;>
      simp [Clock.update, Clock.updateTicks, TweenerState.update, TweenerState.value,
        ClockSpeed.as_ticks_per_second, ht0, ht0i, tickLoop_spec, hcount, hcount1,
        ClockState.nextTick]

/-- Witness for claim C6 at rate 2 after 3 fixed-rate updates: the next
update with dt = 1/2 emits exactly the tick [3], and an update with dt = 0
emits nothing. -/
theorem clock_fixed_rate_one_tick_per_update_witness :
    (0 : ℚ) < 2 ∧
      ((clockAfter 2 3).updateTicks (1 / 2) = [3] ∧
        ((clockAfter 2 3).update (1 / 2)).2 = some 3 ∧
        (clockAfter 2 3).updateTicks 0 = [] ∧
        ((clockAfter 2 3).update 0).2 = none) :=
  ⟨by norm_num, clock_fixed_rate_one_tick_per_update 2 (by norm_num) 3⟩

/-! ## Claim C7 -/

/-- Claim C7: when several whole ticks fire within a single update, each
loop iteration stores its tick count into the shared cell as it happens:
the emitted counts are consecutive, hence pairwise distinct and strictly
increasing; the shared snapshot recorded at each emission holds exactly
that count (a consumer reading mid-block sees the latest completed tick);
and the shared cell the update finishes with carries the last emitted count
(unchanged when no tick fired). -/
theorem clock_multi_tick_publishes_each (c : Clock) (dt : ℚ) (h : c.ticking = true) :
    (tickLoop (c.tick_timer - (c.speed.update dt).value.as_ticks_per_second * dt)
        c.state c.shared).trace.map Prod.fst =
      List.range' c.state.nextTick
        (tickLoop (c.tick_timer - (c.speed.update dt).value.as_ticks_per_second * dt)
          c.state c.shared).trace.length ∧
    List.Pairwise (· < ·)
      ((tickLoop (c.tick_timer - (c.speed.update dt).value.as_ticks_per_second * dt)
        c.state c.shared).trace.map Prod.fst) ∧
    (∀ pr ∈ (tickLoop (c.tick_timer - (c.speed.update dt).value.as_ticks_per_second * dt)
        c.state c.shared).trace, pr.2 = { c.shared with ticks := pr.1 }) ∧
    (c.update dt).1.shared.ticks =
      ((tickLoop (c.tick_timer - (c.speed.update dt).value.as_ticks_per_second * dt)
        c.state c.shared).trace.map Prod.fst).getLast?.getD c.shared.ticks := by
  refine ⟨?_, ?_, ?_, ?_⟩
  · rw [tickLoop_trace_counts, tickLoop_trace_length]
  · rw [tickLoop_trace_counts]
    exact List.pairwise_lt_range' _ _
  · intro pr hpr
    rw [tickLoop_spec] at hpr
    simp only [List.mem_map] at hpr
    obtain ⟨k, _, rfl⟩ := hpr
    rfl
  · rw [Clock.update_ticking c dt h, tickLoop_trace_counts]
    simp only [tickLoop_spec, List.getLast?_range']
    rcases Nat.eq_zero_or_pos
        (tickLoopCount (c.tick_timer - (c.speed.update dt).value.as_ticks_per_second * dt))
        with h0 | h0
    · simp [h0]
    · simp [Nat.pos_iff_ne_zero.mp h0]

/-- Witness for claim C7: a started clock at 3 ticks per second updated by
one second is ticking, and the shared cell it ends with carries the last
per-iteration store. -/
theorem clock_multi_tick_publishes_each_witness :
    ((Clock.new ⟨3⟩).start).ticking = true ∧
      (((Clock.new ⟨3⟩).start).update 1).1.shared.ticks =
        ((tickLoop ((Clock.new ⟨3⟩).start.tick_timer -
            (((Clock.new ⟨3⟩).start.speed.update 1)).value.as_ticks_per_second * 1)
          (Clock.new ⟨3⟩).start.state (Clock.new ⟨3⟩).start.shared).trace.map
            Prod.fst).getLast?.getD ((Clock.new ⟨3⟩).start.shared.ticks) :=
  ⟨rfl, (clock_multi_tick_publishes_each ((Clock.new ⟨3⟩).start) 1 rfl).2.2.2⟩

/-! ## Claim C8 -/

/-- Claim C8: the consistency invariant between a clock and its shared cell
(the shared ticking flag equals the internal one, and the shared tick count
equals the internal Started count, or 0 in NotStarted) holds for a new
clock and is preserved by set_speed, start, pause, stop, update and
on_clock_tick. -/
theorem clock_shared_invariant (spd : ClockSpeed) (tw : Tween) (time : ClockTime)
    (c : Clock) (dt : ℚ) (h : ClockInv c) :
    ClockInv (Clock.new spd) ∧ ClockInv (c.set_speed spd tw) ∧ ClockInv c.start ∧
      ClockInv c.pause ∧ ClockInv c.stop ∧ ClockInv (c.update dt).1 ∧
      ClockInv (c.on_clock_tick time) := by
  obtain ⟨h1, h2⟩ := h
  refine ⟨⟨rfl, rfl⟩, ⟨h1, h2⟩, ⟨rfl, h2⟩, ⟨rfl, h2⟩, ⟨rfl, rfl⟩, ?_, ⟨h1, h2⟩⟩
  rcases Bool.eq_false_or_eq_true c.ticking with hb | hb
  · constructor
    · rw [Clock.update_fst_shared_ticking, Clock.update_fst_ticking, h1]
    · rw [Clock.update_ticking c dt hb]
      simp only [tickLoop_spec]
      rcases Nat.eq_zero_or_pos
          (tickLoopCount (c.tick_timer - (c.speed.update dt).value.as_ticks_per_second * dt))
          with h0 | h0
      · simpa [h0] using h2
      · simp [Nat.pos_iff_ne_zero.mp h0, ClockState.tickCount]
  · obtain ⟨_, e2, e3, _, _⟩ := Clock.update_frozen c dt hb
    constructor
    · rw [e2, e3, h1, hb]
    · rw [e2]
      have e1 : (c.update dt).1.state = c.state := (Clock.update_frozen c dt hb).1
      rw [e1]
      exact h2

/-- Witness for claim C8: a fresh clock of speed 1 satisfies the invariant,
and it is preserved across a start and an update of one second. -/
theorem clock_shared_invariant_witness :
    ClockInv (Clock.new ⟨1⟩) ∧ ClockInv ((Clock.new ⟨1⟩).start) ∧
      ClockInv (((Clock.new ⟨1⟩).start).update 1).1 :=
  ⟨(clock_shared_invariant ⟨1⟩ ⟨0⟩ ⟨0⟩ (Clock.new ⟨1⟩) 1 ⟨rfl, rfl⟩).1,
    (clock_shared_invariant ⟨1⟩ ⟨0⟩ ⟨0⟩ (Clock.new ⟨1⟩) 1 ⟨rfl, rfl⟩).2.2.1,
    (clock_shared_invariant ⟨1⟩ ⟨0⟩ ⟨0⟩ ((Clock.new ⟨1⟩).start) 1 ⟨rfl, rfl⟩).2.2.2.2.2.1⟩

/-! ## Claim C9 -/

theorem Clock.updateMany_shared_removed (c : Clock) (dts : List ℚ) :
    (c.updateMany dts).shared.removed = c.shared.removed := by
  induction dts generalizing c with
  | nil => rfl
  | cons dt dts ih =>
    show ((((c.update dt).1)).updateMany dts).shared.removed = c.shared.removed
    rw [ih, Clock.update_fst_shared_removed]

/-- Claim C9: the removal marker is monotone — mark_for_removal sets it,
is_marked_for_removal reads it back as true, marking again keeps it set,
and no Clock operation (set_speed, start, pause, stop, update, any update
sequence, on_clock_tick) ever changes the removed flag, so once set it
stays set forever. -/
theorem clock_removal_marker_monotone (sh : ClockShared) (c : Clock) (spd : ClockSpeed)
    (tw : Tween) (time : ClockTime) (dt : ℚ) (dts : List ℚ) :
    (sh.mark_for_removal).is_marked_for_removal = true ∧
    (sh.mark_for_removal).mark_for_removal.is_marked_for_removal = true ∧
    sh.is_marked_for_removal = sh.removed ∧
    (c.set_speed spd tw).shared.removed = c.shared.removed ∧
    (c.start).shared.removed = c.shared.removed ∧
    (c.pause).shared.removed = c.shared.removed ∧
    (c.stop).shared.removed = c.shared.removed ∧
    ((c.update dt).1).shared.removed = c.shared.removed ∧
    (c.on_clock_tick time).shared.removed = c.shared.removed ∧
    (c.updateMany dts).shared.removed = c.shared.removed := by
  refine ⟨rfl, rfl, rfl, rfl, rfl, rfl, rfl, ?_, rfl, ?_⟩
  · exact Clock.update_fst_shared_removed c dt
  · exact Clock.updateMany_shared_removed c dts

/-! ## Claim C10 -/

/-- Claim C10: TrackSettings::new (and Default) yields volume Fixed 1.0,
panning Fixed 0.5 and the empty route set, and each builder method replaces
only its own field, leaving the other two unchanged. -/
theorem track_settings_defaults_and_builders (v p : Value) (r : TrackRoutes)
    (s : TrackSettings) :
    TrackSettings.new.volume = Value.Fixed 1 ∧
    TrackSettings.new.panning = Value.Fixed (1/2) ∧
    TrackSettings.new.routes = TrackRoutes.new ∧
    TrackRoutes.new.routes = [] ∧
    TrackSettings.default = TrackSettings.new ∧
    ((s.with_volume v).volume = v ∧ (s.with_volume v).panning = s.panning ∧
      (s.with_volume v).routes = s.routes) ∧
    ((s.with_panning p).panning = p ∧ (s.with_panning p).volume = s.volume ∧
      (s.with_panning p).routes = s.routes) ∧
    ((s.with_routes r).routes = r ∧ (s.with_routes r).volume = s.volume ∧
      (s.with_routes r).panning = s.panning) :=
  ⟨rfl, rfl, rfl, rfl, rfl, ⟨rfl, rfl, rfl⟩, ⟨rfl, rfl, rfl⟩, ⟨rfl, rfl, rfl⟩⟩

/-! ## Claim C3 -/

theorem streaming_push_spec (q : Producer StreamingCommand) (cmd : StreamingCommand) :
    StreamingPushSpec q cmd (q.push cmd).1 ((q.push cmd).2.mapError fun _ => ⟨⟩) := by
  by_cases hc : q.items.length < q.capacity <;>
    simp [Producer.push, StreamingPushSpec, hc, Except.mapError]

theorem sound_push_spec (q : CommandProducer InstanceCommand) (cmd : InstanceCommand) :
    SoundPushSpec q cmd (q.push cmd).1 (q.push cmd).2 () := by
  by_cases hc : q.items.length < q.capacity <;>
    simp [CommandProducer.push, SoundPushSpec, hc]

theorem sound_play_spec (h : SoundHandle) (settings : InstanceSettings) :
    SoundPushSpec h.command_sender (.Play settings.id ⟨settings.id⟩)
      ((h.play settings).1.command_sender) ((h.play settings).2) ⟨settings.id⟩ := by
  by_cases hc : h.command_sender.items.length < h.command_sender.capacity <;>
    simp [SoundHandle.play, CommandProducer.push, SoundPushSpec, hc]

/-- Claim C3: every control-side handle mutator — for a streaming sound
set_volume, set_playback_rate, set_panning, pause, resume, stop, seek_to
and seek_by, and for a sound play, pause, resume and stop — enqueues
exactly one command when the queue has room and returns ok, and otherwise
leaves the queue unchanged and surfaces the CommandQueueFull error, which
is the only runtime error a handle mutator can return. -/
theorem handle_mutators_enqueue_one_command (h : StreamingSoundHandle) (hs : SoundHandle)
    (v rv pv : Value) (tw : Tween) (pos amt : ℚ) (iset : InstanceSettings)
    (pset : PauseInstanceSettings) (rset : ResumeInstanceSettings)
    (sset : StopInstanceSettings) :
    StreamingPushSpec h.command_producer (.SetVolume v)
      (h.set_volume v).1.command_producer (h.set_volume v).2 ∧
    StreamingPushSpec h.command_producer (.SetPlaybackRate rv)
      (h.set_playback_rate rv).1.command_producer (h.set_playback_rate rv).2 ∧
    StreamingPushSpec h.command_producer (.SetPanning pv)
      (h.set_panning pv).1.command_producer (h.set_panning pv).2 ∧
    StreamingPushSpec h.command_producer (.Pause tw)
      (h.pause tw).1.command_producer (h.pause tw).2 ∧
    StreamingPushSpec h.command_producer (.Resume tw)
      (h.resume tw).1.command_producer (h.resume tw).2 ∧
    StreamingPushSpec h.command_producer (.Stop tw)
      (h.stop tw).1.command_producer (h.stop tw).2 ∧
    StreamingPushSpec h.command_producer (.SeekTo pos)
      (h.seek_to pos).1.command_producer (h.seek_to pos).2 ∧
    StreamingPushSpec h.command_producer (.SeekBy amt)
      (h.seek_by amt).1.command_producer (h.seek_by amt).2 ∧
    SoundPushSpec hs.command_sender (.Play iset.id ⟨iset.id⟩)
      ((hs.play iset).1.command_sender) ((hs.play iset).2) ⟨iset.id⟩ ∧
    SoundPushSpec hs.command_sender (.PauseInstancesOf hs.id pset)
      ((hs.pause pset).1.command_sender) ((hs.pause pset).2) () ∧
    SoundPushSpec hs.command_sender (.ResumeInstancesOf hs.id rset)
      ((hs.resume rset).1.command_sender) ((hs.resume rset).2) () ∧
    SoundPushSpec hs.command_sender (.StopInstancesOf hs.id sset)
      ((hs.stop sset).1.command_sender) ((hs.stop sset).2) () :=
  ⟨streaming_push_spec _ _, streaming_push_spec _ _, streaming_push_spec _ _,
    streaming_push_spec _ _, streaming_push_spec _ _, streaming_push_spec _ _,
    streaming_push_spec _ _, streaming_push_spec _ _, sound_play_spec hs iset,
    sound_push_spec _ _, sound_push_spec _ _, sound_push_spec _ _⟩

/-- Witness for claim C3: on a streaming handle with an empty queue of
capacity 1, stop succeeds and appends exactly the one Stop command; on a
handle whose queue has capacity 0, stop surfaces CommandQueueFull and the
queue is unchanged. -/
theorem handle_mutators_enqueue_one_command_witness :
    (((⟨⟨0⟩, ⟨1, []⟩⟩ : StreamingSoundHandle).stop ⟨0⟩).2 = .ok () ∧
      ((⟨⟨0⟩, ⟨1, []⟩⟩ : StreamingSoundHandle).stop ⟨0⟩).1.command_producer.items =
        [] ++ [.Stop ⟨0⟩]) ∧
    (((⟨⟨0⟩, ⟨0, []⟩⟩ : StreamingSoundHandle).stop ⟨0⟩).2 = .error ⟨⟩ ∧
      ((⟨⟨0⟩, ⟨0, []⟩⟩ : StreamingSoundHandle).stop ⟨0⟩).1.command_producer.items = []) := by
  constructor
  · obtain ⟨-, hb, -⟩ := (handle_mutators_enqueue_one_command ⟨⟨0⟩, ⟨1, []⟩⟩
      ⟨0, 0, 0, none, none, ⟨1, []⟩⟩ (.Fixed 0) (.Fixed 0) (.Fixed 0) ⟨0⟩ 0 0 ⟨0⟩
      ⟨none⟩ ⟨none⟩ ⟨none⟩).2.2.2.2.2.1
    exact hb (by decide)
  · obtain ⟨-, -, hb⟩ := (handle_mutators_enqueue_one_command ⟨⟨0⟩, ⟨0, []⟩⟩
      ⟨0, 0, 0, none, none, ⟨1, []⟩⟩ (.Fixed 0) (.Fixed 0) (.Fixed 0) ⟨0⟩ 0 0 ⟨0⟩
      ⟨none⟩ ⟨none⟩ ⟨none⟩).2.2.2.2.2.1
    exact hb (by decide)

end Kira
